import Mathlib

/-!
Verification of `streamlit_parcelamento_app.py`.

Texts are modelled as `List Char`.  Python `str.find` returns `-1` when the
pattern is absent; we model it as `Option Nat` (`none` for `-1`), which is
faithful because the script only compares the result with `-1` and otherwise
uses it as a slice index.  Python slices `s[i:j]` with `0 ≤ i, j` are
`(s.drop i).take (j - i)` (natural subtraction gives the empty slice when
`j ≤ i`, exactly as in Python).
-/

namespace FiscalApp

/-- `startsWith pat s`: `pat` is an initial segment of `s`
(Python `s.startswith(pat)`). -/
def startsWith : List Char → List Char → Bool
  | [], _ => true
  | _ :: _, [] => false
  | p :: ps, c :: cs => p == c && startsWith ps cs

/-- Index of the first occurrence of `pat` in `s`, counting from `i`. -/
def findFrom (pat : List Char) : List Char → Nat → Option Nat
  | [], i => if startsWith pat [] then some i else none
  | c :: t, i => if startsWith pat (c :: t) then some i else findFrom pat t (i + 1)

/-- Python `s.find(pat)`, with `none` for `-1`. -/
def pyFind (s pat : List Char) : Option Nat :=
  findFrom pat s 0

/-- Python `pat in s`: substring containment. -/
def containsSub (s pat : List Char) : Bool :=
  (pyFind s pat).isSome

/-- Literal title of the Receita Federal section (source line 23). -/
def rf_title : List Char := "Diagnóstico Fiscal na Receita Federal".data

/-- Literal title of the PGFN section (source line 24). -/
def pgfn_title : List Char :=
  "Diagnóstico Fiscal na Procuradoria-Geral da Fazenda Nacional".data

def emParcelamento : List Char := "EM PARCELAMENTO".data

def baseIndisponivel : List Char := "BASE INDISPONÍVEL".data

def parcelamentoWord : List Char := "Parcelamento".data

def pendenciaParcelamento : List Char := "Pendência - Parcelamento".data

def naoForamDetectadas : List Char :=
  "Não foram detectadas pendências/exigibilidades suspensas".data

/-- `analyze_text` (source lines 22-36), including the two branches whose
result is discarded.  The Python reassignments of `rf_parc` / `pgfn_parc`
are modelled by shadowing lets. -/
def analyze_text (text : List Char) : Bool × Bool :=
  let rf_start := pyFind text rf_title
  let pgfn_start := pyFind text pgfn_title
  let rf_section :=
    match rf_start, pgfn_start with
    | some i, some j => (text.drop i).take (j - i)
    | _, _ => ([] : List Char)
  let pgfn_section :=
    match pgfn_start with
    | some j => text.drop j
    | none => ([] : List Char)
  let rf_parc := containsSub rf_section emParcelamento
  let rf_parc :=
    if !rf_parc && containsSub rf_section baseIndisponivel
        && containsSub rf_section parcelamentoWord then
      false
    else rf_parc
  let pgfn_parc := containsSub pgfn_section pendenciaParcelamento
  let pgfn_parc :=
    if !pgfn_parc && containsSub pgfn_section naoForamDetectadas then
      false
    else pgfn_parc
  (rf_parc, pgfn_parc)

/-- The classifier with the two discarded checks removed (the simplified
classifier of the refinement claim). -/
def analyze_text_simple (text : List Char) : Bool × Bool :=
  let rf_start := pyFind text rf_title
  let pgfn_start := pyFind text pgfn_title
  let rf_section :=
    match rf_start, pgfn_start with
    | some i, some j => (text.drop i).take (j - i)
    | _, _ => ([] : List Char)
  let pgfn_section :=
    match pgfn_start with
    | some j => text.drop j
    | none => ([] : List Char)
  (containsSub rf_section emParcelamento,
   containsSub pgfn_section pendenciaParcelamento)

/-- The RF section as the specification describes it: from the first
occurrence of the RF title to the first occurrence of the PGFN title,
empty if either is absent. -/
def rfSectionOf (text : List Char) : List Char :=
  match pyFind text rf_title, pyFind text pgfn_title with
  | some i, some j => (text.drop i).take (j - i)
  | _, _ => []

/-- The PGFN section as the specification describes it: from the first
occurrence of the PGFN title to end-of-text, empty if absent. -/
def pgfnSectionOf (text : List Char) : List Char :=
  match pyFind text pgfn_title with
  | some j => text.drop j
  | none => []

/-! ### Mapping parser and CNPJ resolver (source lines 84-88 and 100-102) -/

/-- ASCII whitespace stripped by Python `str.strip()`. -/
def isSpace (c : Char) : Bool :=
  c == ' ' || c == '\t' || c == '\n' || c == '\r' || c == '\x0b' || c == '\x0c'

/-- Python `s.strip()`. -/
def pyStrip (s : List Char) : List Char :=
  ((s.dropWhile isSpace).reverse.dropWhile isSpace).reverse

/-- Python `line.split('\t')`: all fields, in order (a list one longer than
the number of tabs). -/
def splitTab : List Char → List (List Char)
  | [] => [[]]
  | c :: rest =>
    if c == '\t' then [] :: splitTab rest
    else
      match splitTab rest with
      | [] => [[c]]
      | f :: fs => (c :: f) :: fs

/-- Python `text.splitlines()` worker (handles `\n`, `\r\n` and `\r`;
a trailing terminator produces no empty final line). -/
def splitlinesGo : List Char → List Char → List (List Char)
  | [], acc => [acc.reverse]
  | '\r' :: '\n' :: rest, acc =>
    acc.reverse :: (if rest.isEmpty then [] else splitlinesGo rest [])
  | '\n' :: rest, acc =>
    acc.reverse :: (if rest.isEmpty then [] else splitlinesGo rest [])
  | '\r' :: rest, acc =>
    acc.reverse :: (if rest.isEmpty then [] else splitlinesGo rest [])
  | c :: rest, acc => splitlinesGo rest (c :: acc)

/-- Python `text.splitlines()` (`[]` on the empty string). -/
def splitlines (s : List Char) : List (List Char) :=
  match s with
  | [] => []
  | _ => splitlinesGo s []

/-- Python `dict` keyed by strings: association list in insertion order. -/
abbrev Dict := List (List Char × List Char)

/-- Python `mapping[k] = v`: replace in place when the key exists,
append otherwise. -/
def dictInsert (m : Dict) (k v : List Char) : Dict :=
  if m.any (fun p => p.1 == k) then
    m.map (fun p => if p.1 == k then (k, v) else p)
  else m ++ [(k, v)]

/-- Python `mapping.get(k)` (`none` when absent). -/
def dictGet (m : Dict) (k : List Char) : Option (List Char) :=
  (m.find? (fun p => p.1 == k)).map (fun p => p.2)

/-- One iteration of the mapping loop (source lines 85-88).  Python
`name, cnpj = line.split('\t')` raises `ValueError` unless the split yields
exactly two fields; the error is modelled as `none`. -/
def parseLine (m : Dict) (line : List Char) : Option Dict :=
  if line.contains '\t' then
    match splitTab line with
    | [nm, cnpj] => some (dictInsert m (cnpj.filter Char.isDigit) (pyStrip nm))
    | _ => none
  else some m

/-- The whole mapping-parse loop (source lines 84-88). -/
def parseMapping (text : List Char) : Option Dict :=
  (splitlines text).foldlM parseLine ([] : Dict)

/-- `re.search(r"(\d{14})", fname)` (source line 100): the leftmost
position with 14 consecutive digits, returning those 14 digits. -/
def find14Digits : List Char → Option (List Char)
  | [] => none
  | c :: rest =>
    if ((c :: rest).take 14).length == 14 && ((c :: rest).take 14).all Char.isDigit then
      some ((c :: rest).take 14)
    else find14Digits rest

/-- The spec-side predicate "the filename contains a 14-digit numeric
substring": some start position carries a window of 14 digit characters. -/
def has14Digits (f : List Char) : Bool :=
  (List.range f.length).any fun i =>
    ((f.drop i).take 14).length == 14 && ((f.drop i).take 14).all Char.isDigit

/-- The "Unknown" sentinel (source line 102). -/
def desconhecida : List Char := "Desconhecida".data

/-- Source lines 100-102: extract the CNPJ from the filename and look it up
(`mapping.get(cnpj, "Desconhecida")`; a missing regex match leaves `cnpj`
as `None`, which is never a key, hence the default). -/
def resolveCompany (m : Dict) (fname : List Char) : List Char :=
  match find14Digits fname with
  | some k => (dictGet m k).getD desconhecida
  | none => desconhecida

/-! ### The per-file loop and the output assembly (source lines 91-166) -/

/-- One entry of the uploaded ZIP archive: filename and raw byte content. -/
structure ZipEntry where
  filename : List Char
  content : List Nat

/-- One record of the `results` list (source lines 108-112). -/
structure ResultRec where
  empresa : List Char
  rf : Bool
  pgfn : Bool

/-- The three accumulators of the loop (source lines 92-94). -/
structure RunState where
  results : List ResultRec
  matched : List (List Char × List Nat)
  unmatched : List (List Char × List Nat)

/-- `info.filename.lower().endswith('.pdf')` (source line 97). -/
def isPdfName (f : List Char) : Bool :=
  startsWith ".pdf".data.reverse (f.map Char.toLower).reverse

/-- The record built for one PDF entry (source lines 100-112): resolve the
company from the filename and classify the extracted text.  `extract`
stands for the external `extract_text_from_bytes` (PyPDF2). -/
def recordOf (extract : List Nat → List Char) (m : Dict) (e : ZipEntry) :
    ResultRec :=
  { empresa := resolveCompany m e.filename,
    rf := (analyze_text (extract e.content)).1,
    pgfn := (analyze_text (extract e.content)).2 }

/-- One iteration of the loop over archive entries (source lines 96-119):
non-`.pdf` entries are skipped; a known company is appended to `matched`
under the new name `{empresa}.pdf`, an unknown one to `unmatched` under its
original filename; every processed entry is appended to `results`. -/
def processEntry (extract : List Nat → List Char) (m : Dict)
    (st : RunState) (e : ZipEntry) : RunState :=
  if isPdfName e.filename then
    let r := recordOf extract m e
    if r.empresa ≠ desconhecida then
      { results := st.results ++ [r],
        matched := st.matched ++ [(r.empresa ++ ".pdf".data, e.content)],
        unmatched := st.unmatched }
    else
      { results := st.results ++ [r],
        matched := st.matched,
        unmatched := st.unmatched ++ [(e.filename, e.content)] }
  else st

/-- The whole loop (source lines 96-119). -/
def processZip (extract : List Nat → List Char) (m : Dict)
    (entries : List ZipEntry) : RunState :=
  entries.foldl (processEntry extract m) ⟨[], [], []⟩

/-- `known_results` (source line 122). -/
def knownResults (rs : List ResultRec) : List ResultRec :=
  rs.filter (fun r => decide (r.empresa ≠ desconhecida))

/-- Bool form of "this entry resolves to a known company". -/
def isKnown (m : Dict) (e : ZipEntry) : Bool :=
  decide (resolveCompany m e.filename ≠ desconhecida)

/-- `"Sim" if flag else "Não"` (source lines 51-52 and 127-128). -/
def simNao (b : Bool) : List Char :=
  if b then "Sim".data else "Não".data

/-- One display-table/CSV row (source lines 126-128), which is also one PDF
table row (source lines 49-53). -/
def rowOf (r : ResultRec) : List (List Char) :=
  [r.empresa, simNao r.rf, simNao r.pgfn]

/-- The column names (source lines 47 and 126-128). -/
def tableHeader : List (List Char) :=
  ["Empresa".data, "Parcelamento RF".data, "Parcelamento PGFN".data]

/-- The rows of the displayed dataframe (source lines 125-129). -/
def dfRows (known : List ResultRec) : List (List (List Char)) :=
  known.map rowOf

/-- Modelled from the spec: CSV serialization is delegated to the external
collaborator `pandas.DataFrame.to_csv`; a field is quoted, with inner
quotes doubled, when it holds a comma, a quote or a line break (standard
minimal quoting). -/
def csvField (s : List Char) : List Char :=
  if s.any (fun c => c == ',' || c == '"' || c == '\n' || c == '\r') then
    '"' :: ((s.map (fun c => if c = '"' then ['"', '"'] else [c])).flatten ++ ['"'])
  else s

/-- One CSV line: the rendered fields joined by commas. -/
def csvLine : List (List Char) → List Char
  | [] => []
  | [f] => csvField f
  | f :: fs => csvField f ++ ',' :: csvLine fs

/-- `df.to_csv(index=False)` (source line 134): header line, then one line
per row, each terminated by a newline. -/
def toCsvString (rows : List (List (List Char))) : List Char :=
  csvLine tableHeader ++ '\n' :: (rows.map (fun r => csvLine r ++ ['\n'])).flatten

/-- UTF-8 encoding of one character (code point to 1-4 bytes). -/
def utf8Char (c : Char) : List Nat :=
  let n := c.toNat
  if n < 0x80 then [n]
  else if n < 0x800 then [0xC0 + n / 0x40, 0x80 + n % 0x40]
  else if n < 0x10000 then
    [0xE0 + n / 0x1000, 0x80 + (n / 0x40) % 0x40, 0x80 + n % 0x40]
  else
    [0xF0 + n / 0x40000, 0x80 + (n / 0x1000) % 0x40,
     0x80 + (n / 0x40) % 0x40, 0x80 + n % 0x40]

/-- Python `s.encode('utf-8')`. -/
def utf8Encode (s : List Char) : List Nat :=
  (s.map utf8Char).flatten

/-- The bytes offered by the CSV download button (source line 134). -/
def csvBytes (known : List ResultRec) : List Nat :=
  utf8Encode (toCsvString (dfRows known))

/-- The summary PDF's content as assembled by `generate_pdf` (source lines
39-68): the title paragraph and the table data.  Page layout and styling
(reportlab) are external collaborators and are not modelled. -/
structure PdfDoc where
  title : List Char
  table : List (List (List Char))

/-- `generate_pdf` (source lines 39-68): header row, then one row per
result with the flags rendered "Sim"/"Não" (source lines 47-53). -/
def generate_pdf (results : List ResultRec) : PdfDoc :=
  { title := "Relatório de Parcelamento".data,
    table := tableHeader :: results.map rowOf }

/-- The entries written to the output archive (source lines 153-160): the
renamed files under `renomeados/`, then the unmatched files under
`nao_encontrados/`. -/
def zipOutputEntries (matched unmatched : List (List Char × List Nat)) :
    List (List Char × List Nat) :=
  matched.map (fun p => ("renomeados/".data ++ p.1, p.2)) ++
    unmatched.map (fun p => ("nao_encontrados/".data ++ p.1, p.2))

/-- The outputs of one run. -/
structure RunOutputs where
  csvOut : List Nat
  pdfOut : Option PdfDoc
  errorMessages : List (List Char)
  zipOut : List (List Char × List Nat)

/-- The output-assembly tail of `main` (source lines 121-166).  `gen`
stands for the PDF generation step, which may raise inside reportlab; an
exception (with its text) is modelled as `Except.error`, caught by the
`try/except` of source lines 142-150 and surfaced via `st.error`.  The CSV
is produced before the `try` and the reorganized ZIP after it,
unconditionally. -/
def outputPhase (gen : List ResultRec → Except (List Char) PdfDoc)
    (st : RunState) : RunOutputs :=
  match gen (knownResults st.results) with
  | .ok p =>
    { csvOut := csvBytes (knownResults st.results), pdfOut := some p,
      errorMessages := [],
      zipOut := zipOutputEntries st.matched st.unmatched }
  | .error e =>
    { csvOut := csvBytes (knownResults st.results), pdfOut := none,
      errorMessages := ["Erro ao gerar PDF: ".data ++ e],
      zipOut := zipOutputEntries st.matched st.unmatched }

/-- The spec-side description of one mapping line: no tab means no entry;
with a tab, the key is the digits-only text after the first tab and the
value the whitespace-trimmed text before it. -/
def specEntry (line : List Char) : Option (List Char × List Char) :=
  if line.contains '\t' then
    some (((line.dropWhile (fun c => c != '\t')).tail).filter Char.isDigit,
      pyStrip (line.takeWhile (fun c => c != '\t')))
  else none

def specStep (m : Dict) (line : List Char) : Dict :=
  match specEntry line with
  | some kv => dictInsert m kv.1 kv.2
  | none => m

/-- The spec-side parse: fold the per-line description, later lines
overwriting earlier ones on duplicate keys. -/
def specParse (ls : List (List Char)) : Dict :=
  ls.foldl specStep []

/-- Number of tab characters in a line. -/
def countTab (line : List Char) : Nat :=
  (line.filter (fun c => c == '\t')).length

theorem discard_branch_eq (b c : Bool) :
    (if !b && c then false else b) = b := by
  cases b <;> cases c <;> rfl

theorem analyze_text_eq (text : List Char) :
    analyze_text text =
      (containsSub (rfSectionOf text) emParcelamento,
       containsSub (pgfnSectionOf text) pendenciaParcelamento) := by
  unfold analyze_text rfSectionOf pgfnSectionOf
  cases hr : pyFind text rf_title <;> cases hp : pyFind text pgfn_title <;>
    simp only [Bool.and_assoc, discard_branch_eq]

theorem analyze_text_simple_eq (text : List Char) :
    analyze_text_simple text =
      (containsSub (rfSectionOf text) emParcelamento,
       containsSub (pgfnSectionOf text) pendenciaParcelamento) := by
  unfold analyze_text_simple rfSectionOf pgfnSectionOf
  cases hr : pyFind text rf_title <;> cases hp : pyFind text pgfn_title <;> rfl

/-- C1: for every input text, `analyze_text` returns the pair of flags where
the RF flag is true exactly when "EM PARCELAMENTO" occurs in the RF section
(the substring from the first occurrence of the RF title to the first
occurrence of the PGFN title, empty if either is absent), and the PGFN flag
is true exactly when "Pendência - Parcelamento" occurs in the PGFN section
(from the first occurrence of the PGFN title to end-of-text, empty if
absent). -/
theorem claim_C1 (text : List Char) :
    analyze_text text =
      (containsSub (rfSectionOf text) emParcelamento,
       containsSub (pgfnSectionOf text) pendenciaParcelamento) :=
  analyze_text_eq text

/-- C5: `analyze_text` is extensionally equal to the simplified classifier
that omits the "BASE INDISPONÍVEL"/"Parcelamento" check and the
"Não foram detectadas pendências/exigibilidades suspensas" check: the two
dead-code branches never alter either returned flag. -/
theorem claim_C5 (text : List Char) :
    analyze_text text = analyze_text_simple text :=
  (analyze_text_eq text).trans (analyze_text_simple_eq text).symm

/-- C8: when both section titles occur but the first occurrence of the RF
title comes strictly after the first occurrence of the PGFN title, the RF
section is the empty string and the returned RF flag is false. -/
theorem claim_C8 (text : List Char) (i j : Nat)
    (hr : pyFind text rf_title = some i) (hp : pyFind text pgfn_title = some j)
    (hij : j < i) :
    rfSectionOf text = [] ∧ (analyze_text text).1 = false := by
  have hsec : rfSectionOf text = [] := by
    unfold rfSectionOf
    rw [hr, hp]
    simp [Nat.sub_eq_zero_of_le (Nat.le_of_lt hij)]
  refine ⟨hsec, ?_⟩
  rw [analyze_text_eq, hsec]
  rfl

/-- Witness for C8: in the concrete text `pgfn_title ++ rf_title` the PGFN
title occurs first (index 0) and the RF title second (index 60), and the RF
flag comes out false. -/
theorem claim_C8_witness :
    rfSectionOf (pgfn_title ++ rf_title) = [] ∧
      (analyze_text (pgfn_title ++ rf_title)).1 = false :=
  claim_C8 (pgfn_title ++ rf_title) 60 0 (by decide) (by decide) (by decide)

/-! ### Lemmas on the mapping parser -/

theorem countTab_cons (c : Char) (l : List Char) :
    countTab (c :: l) = (if c = '\t' then 1 else 0) + countTab l := by
  by_cases hc : c = '\t' <;> simp [countTab, List.filter_cons, hc, Nat.add_comm]

theorem contains_tab_countTab (l : List Char) (h : l.contains '\t' = true) :
    0 < countTab l := by
  induction l with
  | nil => simp at h
  | cons c rest ih =>
    rw [countTab_cons]
    by_cases hc : c = '\t'
    · simp [hc]
    · rw [List.contains_cons] at h
      simp only [if_neg hc, Nat.zero_add]
      exact ih (by simpa [Ne.symm hc] using h)

theorem splitTab_noTab (l : List Char) (h : countTab l = 0) : splitTab l = [l] := by
  induction l with
  | nil => rfl
  | cons c rest ih =>
    rw [countTab_cons] at h
    by_cases hc : c = '\t'
    · rw [if_pos hc] at h
      omega
    · rw [if_neg hc, Nat.zero_add] at h
      unfold splitTab
      rw [if_neg (by simpa using hc), ih h]

theorem splitTab_single (l : List Char) (h1 : countTab l ≤ 1)
    (h2 : l.contains '\t' = true) :
    splitTab l = [l.takeWhile (fun c => c != '\t'),
                  (l.dropWhile (fun c => c != '\t')).tail] := by
  induction l with
  | nil => simp at h2
  | cons c rest ih =>
    by_cases hc : c = '\t'
    · subst hc
      rw [countTab_cons, if_pos rfl] at h1
      have h0 : countTab rest = 0 := by omega
      unfold splitTab
      rw [splitTab_noTab rest h0]
      simp
    · have h1r : countTab rest ≤ 1 := by
        rw [countTab_cons, if_neg hc, Nat.zero_add] at h1
        exact h1
      have h2r : rest.contains '\t' = true := by
        rw [List.contains_cons] at h2
        simpa [Ne.symm hc] using h2
      unfold splitTab
      rw [if_neg (by simpa using hc), ih h1r h2r]
      simp [hc]

theorem parseLine_eq_specStep (m : Dict) (l : List Char) (h : countTab l ≤ 1) :
    parseLine m l = some (specStep m l) := by
  unfold parseLine specStep specEntry
  by_cases hc : l.contains '\t' = true
  · rw [if_pos hc, if_pos hc, splitTab_single l h hc]
  · rw [if_neg hc, if_neg hc]

theorem parse_fold (ls : List (List Char)) (m : Dict)
    (h : ∀ l ∈ ls, countTab l ≤ 1) :
    ls.foldlM parseLine m = some (ls.foldl specStep m) := by
  induction ls generalizing m with
  | nil => rfl
  | cons l ls ih =>
    rw [List.foldlM_cons, List.foldl_cons,
      parseLine_eq_specStep m l (h l (List.mem_cons_self l ls))]
    exact ih (specStep m l) (fun x hx => h x (List.mem_cons_of_mem l hx))

/-- C3 (amended): for every mapping text each of whose lines contains at
most one tab, the parse step raises no error and produces, per line, exactly
the entry the specification describes (no entry without a tab; key =
digits-only second field, value = trimmed first field; later lines
overwrite earlier ones on duplicate keys, as `dictInsert` replaces). -/
theorem claim_C3 (text : List Char)
    (h : ∀ l ∈ splitlines text, countTab l ≤ 1) :
    parseMapping text = some (specParse (splitlines text)) :=
  parse_fold (splitlines text) [] h

/-- Counterexample to C3 as stated: a line with two tabs makes the unpacking
`name, cnpj = line.split('\t')` raise a `ValueError`, so the parse step does
not return a mapping (modelled as `none`). -/
theorem claim_C3_counterexample :
    parseMapping "Empresa A\tB\tC".data = none := by decide

/-- Witness for C3 (amended) on a concrete three-line mapping text with a
well-formed line, a malformed (tab-less) line and a second well-formed
line. -/
theorem claim_C3_witness :
    parseMapping "Acme Corp \t11.222.333/0001-44\nmalformed\nBeta\t99x9".data =
      some (specParse (splitlines
        "Acme Corp \t11.222.333/0001-44\nmalformed\nBeta\t99x9".data)) :=
  claim_C3 _ (by decide)

/-! ### Lemmas on the resolver -/

theorem has14Digits_cons (c : Char) (rest : List Char) :
    has14Digits (c :: rest)
      = ((((c :: rest).take 14).length == 14
          && ((c :: rest).take 14).all Char.isDigit) || has14Digits rest) := by
  unfold has14Digits
  rw [List.length_cons, List.range_succ_eq_map, List.any_cons, List.any_map]
  rfl

theorem has14Digits_eq_isSome (f : List Char) :
    has14Digits f = (find14Digits f).isSome := by
  induction f with
  | nil => rfl
  | cons c rest ih =>
    rw [has14Digits_cons]
    unfold find14Digits
    by_cases hb : (((c :: rest).take 14).length == 14
        && ((c :: rest).take 14).all Char.isDigit) = true
    · rw [if_pos hb, hb]
      simp
    · rw [Bool.not_eq_true] at hb
      rw [hb, if_neg Bool.false_ne_true]
      simp [ih]

theorem find14Digits_spec (f k : List Char) (h : find14Digits f = some k) :
    k.length = 14 ∧ k.all Char.isDigit = true := by
  induction f with
  | nil => simp [find14Digits] at h
  | cons c rest ih =>
    unfold find14Digits at h
    by_cases hb : (((c :: rest).take 14).length == 14
        && ((c :: rest).take 14).all Char.isDigit) = true
    · rw [if_pos hb] at h
      injection h with h
      subst h
      exact (by simpa using hb)
    · rw [if_neg hb] at h
      exact ih h

theorem resolveCompany_some (m : Dict) (fname k : List Char)
    (h : find14Digits fname = some k) :
    resolveCompany m fname = (dictGet m k).getD desconhecida := by
  unfold resolveCompany
  rw [h]

theorem resolveCompany_none (m : Dict) (fname : List Char)
    (h : find14Digits fname = none) :
    resolveCompany m fname = desconhecida := by
  unfold resolveCompany
  rw [h]

/-- C2: with no 14-digit substring in the filename the resolver yields the
"Desconhecida" sentinel; when the (leftmost) 14-digit substring found in the
filename is a key of the mapping, the resolver yields the name mapped to
it. -/
theorem claim_C2 (m : Dict) (fname : List Char) :
    (has14Digits fname = false → resolveCompany m fname = desconhecida) ∧
    (∀ k v, find14Digits fname = some k → dictGet m k = some v →
      resolveCompany m fname = v) := by
  constructor
  · intro h
    rw [has14Digits_eq_isSome] at h
    exact resolveCompany_none m fname (Option.not_isSome_iff_eq_none.mp (by simp [h]))
  · intro k v hk hv
    rw [resolveCompany_some m fname k hk, hv]
    rfl

/-- Witness for C2: a filename carrying the mapped CNPJ resolves to
"Acme Corp"; a filename with no 14-digit run resolves to "Desconhecida". -/
theorem claim_C2_witness :
    resolveCompany [("11222333000144".data, "Acme Corp".data)]
        "11222333000144_report.pdf".data = "Acme Corp".data ∧
    resolveCompany [("11222333000144".data, "Acme Corp".data)]
        "report.pdf".data = desconhecida :=
  ⟨(claim_C2 _ _).2 "11222333000144".data "Acme Corp".data (by decide) (by decide),
   (claim_C2 _ _).1 (by decide)⟩

/-- C9: a resolution that is not the sentinel went through a found key of
exactly 14 digit characters that the mapping maps to the returned name. -/
theorem claim_C9 (m : Dict) (fname : List Char)
    (h : resolveCompany m fname ≠ desconhecida) :
    ∃ k, find14Digits fname = some k ∧ k.length = 14 ∧
      k.all Char.isDigit = true ∧
      dictGet m k = some (resolveCompany m fname) := by
  cases hf : find14Digits fname with
  | none => exact absurd (resolveCompany_none m fname hf) h
  | some k =>
    have hr := resolveCompany_some m fname k hf
    cases hg : dictGet m k with
    | none =>
      rw [hg] at hr
      exact absurd hr h
    | some v =>
      rw [hg] at hr
      obtain ⟨hlen, hdig⟩ := find14Digits_spec fname k hf
      exact ⟨k, rfl, hlen, hdig, by rw [hg, hr]; rfl⟩

/-- Witness for C9: a successful concrete resolution exhibits its 14-digit
key. -/
theorem claim_C9_witness :
    ∃ k, find14Digits "11222333000144_report.pdf".data = some k ∧
      k.length = 14 ∧ k.all Char.isDigit = true ∧
      dictGet [("11222333000144".data, "Acme Corp".data)] k =
        some (resolveCompany [("11222333000144".data, "Acme Corp".data)]
          "11222333000144_report.pdf".data) :=
  claim_C9 _ _ (by decide)

/-! ### Lemmas on the loop and the outputs -/

theorem recordOf_empresa (extract : List Nat → List Char) (m : Dict)
    (e : ZipEntry) : (recordOf extract m e).empresa = resolveCompany m e.filename :=
  rfl

theorem processZip_go (extract : List Nat → List Char) (m : Dict)
    (entries : List ZipEntry) (st : RunState) :
    entries.foldl (processEntry extract m) st =
      { results := st.results ++
          (entries.filter (fun e => isPdfName e.filename)).map (recordOf extract m),
        matched := st.matched ++
          ((entries.filter (fun e => isPdfName e.filename)).filter (isKnown m)).map
            (fun e => (resolveCompany m e.filename ++ ".pdf".data, e.content)),
        unmatched := st.unmatched ++
          ((entries.filter (fun e => isPdfName e.filename)).filter
              (fun e => !(isKnown m e))).map
            (fun e => (e.filename, e.content)) } := by
  induction entries generalizing st with
  | nil => simp
  | cons e es ih =>
    rw [List.foldl_cons, ih]
    unfold processEntry
    by_cases hp : isPdfName e.filename = true
    · by_cases hk : resolveCompany m e.filename ≠ desconhecida
      · simp [hp, recordOf_empresa, hk, isKnown, List.filter_cons]
      · rw [not_not] at hk
        simp [hp, recordOf_empresa, hk, isKnown, List.filter_cons]
    · simp [hp, List.filter_cons]

theorem processZip_eq (extract : List Nat → List Char) (m : Dict)
    (entries : List ZipEntry) :
    processZip extract m entries =
      { results :=
          (entries.filter (fun e => isPdfName e.filename)).map (recordOf extract m),
        matched :=
          ((entries.filter (fun e => isPdfName e.filename)).filter (isKnown m)).map
            (fun e => (resolveCompany m e.filename ++ ".pdf".data, e.content)),
        unmatched :=
          ((entries.filter (fun e => isPdfName e.filename)).filter
              (fun e => !(isKnown m e))).map
            (fun e => (e.filename, e.content)) } := by
  unfold processZip
  rw [processZip_go]
  simp

theorem knownResults_map (extract : List Nat → List Char) (m : Dict)
    (l : List ZipEntry) :
    knownResults (l.map (recordOf extract m)) =
      (l.filter (isKnown m)).map (recordOf extract m) := by
  unfold knownResults
  rw [List.filter_map]
  rfl

theorem outputPhase_zip (gen : List ResultRec → Except (List Char) PdfDoc)
    (st : RunState) :
    (outputPhase gen st).zipOut = zipOutputEntries st.matched st.unmatched := by
  unfold outputPhase
  split <;> rfl

theorem outputPhase_csv (gen : List ResultRec → Except (List Char) PdfDoc)
    (st : RunState) :
    (outputPhase gen st).csvOut = csvBytes (knownResults st.results) := by
  unfold outputPhase
  split <;> rfl

/-- C4: in every run, each processed report with a known company gives rise
to exactly one dataframe/CSV row, one PDF table row, and one
`renomeados/{company}.pdf` entry of the output archive (one per known
report, in order, via a single map); each report resolving to
"Desconhecida" contributes no row and appears only under
`nao_encontrados/`, under its original filename. -/
theorem claim_C4 (extract : List Nat → List Char) (m : Dict)
    (entries : List ZipEntry)
    (gen : List ResultRec → Except (List Char) PdfDoc) :
    dfRows (knownResults (processZip extract m entries).results) =
      ((entries.filter (fun e => isPdfName e.filename)).filter (isKnown m)).map
        (fun e => rowOf (recordOf extract m e)) ∧
    (generate_pdf (knownResults (processZip extract m entries).results)).table =
      tableHeader ::
        ((entries.filter (fun e => isPdfName e.filename)).filter (isKnown m)).map
          (fun e => rowOf (recordOf extract m e)) ∧
    (outputPhase gen (processZip extract m entries)).zipOut =
      ((entries.filter (fun e => isPdfName e.filename)).filter (isKnown m)).map
        (fun e => ("renomeados/".data ++ (resolveCompany m e.filename ++ ".pdf".data),
          e.content)) ++
      ((entries.filter (fun e => isPdfName e.filename)).filter
          (fun e => !(isKnown m e))).map
        (fun e => ("nao_encontrados/".data ++ e.filename, e.content)) := by
  rw [processZip_eq, outputPhase_zip]
  refine ⟨?_, ?_, ?_⟩
  · rw [knownResults_map]
    unfold dfRows
    rw [List.map_map]
    rfl
  · rw [knownResults_map]
    unfold generate_pdf
    rw [List.map_map]
    rfl
  · unfold zipOutputEntries
    rw [List.map_map, List.map_map]
    rfl

/-- C10: output order follows input order: the dataframe/CSV rows, the
`renomeados/` entries and the `nao_encontrados/` entries are each one map
over a filtered subsequence of the input archive's entries, and those
filtered lists are subsequences (`List.Sublist`) of the input entry list. -/
theorem claim_C10 (extract : List Nat → List Char) (m : Dict)
    (entries : List ZipEntry) :
    (processZip extract m entries).results =
      (entries.filter (fun e => isPdfName e.filename)).map (recordOf extract m) ∧
    dfRows (knownResults (processZip extract m entries).results) =
      ((entries.filter (fun e => isPdfName e.filename)).filter (isKnown m)).map
        (fun e => rowOf (recordOf extract m e)) ∧
    (processZip extract m entries).matched =
      ((entries.filter (fun e => isPdfName e.filename)).filter (isKnown m)).map
        (fun e => (resolveCompany m e.filename ++ ".pdf".data, e.content)) ∧
    (processZip extract m entries).unmatched =
      ((entries.filter (fun e => isPdfName e.filename)).filter
          (fun e => !(isKnown m e))).map
        (fun e => (e.filename, e.content)) ∧
    List.Sublist
      ((entries.filter (fun e => isPdfName e.filename)).filter (isKnown m))
      entries ∧
    List.Sublist
      ((entries.filter (fun e => isPdfName e.filename)).filter
        (fun e => !(isKnown m e)))
      entries := by
  rw [processZip_eq]
  refine ⟨rfl, ?_, rfl, rfl, ?_, ?_⟩
  · rw [knownResults_map]
    unfold dfRows
    rw [List.map_map]
    rfl
  · exact (List.filter_sublist _).trans (List.filter_sublist _)
  · exact (List.filter_sublist _).trans (List.filter_sublist _)

/-! ### The CSV output -/

/-- The spec-side rendering of the CSV: the literal header line, then one
line per known result with the two flags rendered "Sim"/"Não". -/
def csvSpecOf (known : List ResultRec) : List Char :=
  "Empresa,Parcelamento RF,Parcelamento PGFN\n".data ++
    (known.map (fun r =>
      csvField r.empresa ++
        ',' :: ((if r.rf then "Sim".data else "Não".data) ++
          ',' :: ((if r.pgfn then "Sim".data else "Não".data) ++ ['\n'])))).flatten

theorem csvField_simNao (b : Bool) : csvField (simNao b) = simNao b := by
  cases b <;> decide

theorem csvRow_eq (r : ResultRec) :
    csvLine (rowOf r) ++ ['\n'] =
      csvField r.empresa ++
        ',' :: (simNao r.rf ++ ',' :: (simNao r.pgfn ++ ['\n'])) := by
  simp [csvLine, rowOf, csvField_simNao]

theorem toCsvString_eq (known : List ResultRec) :
    toCsvString (dfRows known) = csvSpecOf known := by
  unfold toCsvString csvSpecOf dfRows
  rw [List.map_map]
  have hh : csvLine tableHeader = "Empresa,Parcelamento RF,Parcelamento PGFN".data := by
    decide
  have hr : (fun r => csvLine (rowOf r) ++ ['\n']) =
      (fun r => csvField r.empresa ++
        ',' :: ((if r.rf then "Sim".data else "Não".data) ++
          ',' :: ((if r.pgfn then "Sim".data else "Não".data) ++ ['\n']))) := by
    funext r
    exact csvRow_eq r
  rw [hh, show ("Empresa,Parcelamento RF,Parcelamento PGFN\n" : String).data =
    ("Empresa,Parcelamento RF,Parcelamento PGFN" : String).data ++ ['\n'] by decide]
  simp only [Function.comp_def, hr, List.append_assoc, List.singleton_append]

theorem utf8Encode_append (a b : List Char) :
    utf8Encode (a ++ b) = utf8Encode a ++ utf8Encode b := by
  simp [utf8Encode]

/-- `startsWith` for byte lists. -/
def startsWithBytes : List Nat → List Nat → Bool
  | [], _ => true
  | _ :: _, [] => false
  | p :: ps, c :: cs => p == c && startsWithBytes ps cs

theorem startsWithBytes_append (p x : List Nat) :
    startsWithBytes p (p ++ x) = true := by
  induction p with
  | nil => rfl
  | cons c cs ih => simp [startsWithBytes, ih]

/-- C6: the CSV output is the UTF-8 encoding of a text that begins with the
header line `Empresa,Parcelamento RF,Parcelamento PGFN` and renders each
row's two flags as "Sim"/"Não". -/
theorem claim_C6 (known : List ResultRec) :
    csvBytes known = utf8Encode (csvSpecOf known) ∧
    startsWithBytes
      (utf8Encode "Empresa,Parcelamento RF,Parcelamento PGFN\n".data)
      (csvBytes known) = true := by
  have hb : csvBytes known = utf8Encode (csvSpecOf known) := by
    unfold csvBytes
    rw [toCsvString_eq]
  refine ⟨hb, ?_⟩
  rw [hb]
  unfold csvSpecOf
  rw [utf8Encode_append]
  exact startsWithBytes_append _ _

/-! ### Error handling around the PDF step -/

/-- C7: when the PDF generation step raises, the exception is surfaced as
the operator-visible message "Erro ao gerar PDF: ..." and the CSV and
reorganized-ZIP outputs are exactly those of a run whose PDF step does not
fail: the run does not abort. -/
theorem claim_C7 (st : RunState)
    (gen gen2 : List ResultRec → Except (List Char) PdfDoc) (e : List Char)
    (h : gen (knownResults st.results) = Except.error e) :
    (outputPhase gen st).errorMessages = ["Erro ao gerar PDF: ".data ++ e] ∧
    (outputPhase gen st).csvOut = (outputPhase gen2 st).csvOut ∧
    (outputPhase gen st).zipOut = (outputPhase gen2 st).zipOut := by
  refine ⟨?_, ?_, ?_⟩
  · unfold outputPhase
    rw [h]
  · rw [outputPhase_csv, outputPhase_csv]
  · rw [outputPhase_zip, outputPhase_zip]

/-- Witness for C7: a PDF generator that always raises, on the empty run,
still yields the same CSV and ZIP as the non-raising generator, plus the
error message. -/
theorem claim_C7_witness :
    (outputPhase (fun _ => Except.error "boom".data)
        (RunState.mk [] [] [])).errorMessages
      = ["Erro ao gerar PDF: ".data ++ "boom".data] ∧
    (outputPhase (fun _ => Except.error "boom".data)
        (RunState.mk [] [] [])).csvOut
      = (outputPhase (fun k => Except.ok (generate_pdf k))
          (RunState.mk [] [] [])).csvOut ∧
    (outputPhase (fun _ => Except.error "boom".data)
        (RunState.mk [] [] [])).zipOut
      = (outputPhase (fun k => Except.ok (generate_pdf k))
          (RunState.mk [] [] [])).zipOut :=
  claim_C7 (RunState.mk [] [] []) _ _ "boom".data rfl

end FiscalApp
